import Mathlib

/-!
Shallow embedding of the buffer-submission layer of a typed V4L2 buffer-queue
engine: the pre-submission buffer (`QBuffer`) of `device/queue/qbuf.rs` and the
collaborators it manipulates (buffer registry, buffer state, safety fuse,
device-level plane descriptors).

The `ioctl::qbuf` device call is an external fallible collaborator: each
submission takes its outcome as a parameter (`dev : Option Nat`, `none` =
success, `some code` = device rejection) and the descriptors actually passed to
the device are recorded in the outcome (`devCall`), so that "the device call is
never issued" is expressible as `devCall = none`.

Rust move/drop semantics are made explicit: every submission entry point
consumes the `QBuffer`, so on the early-error paths the buffer (whose fuse is
still armed) is destroyed before the caller sees the error, which fires the
fuse; this firing is part of the modelled outcome's registry.
-/

namespace V4l2r

/-- Per-slot buffer state held by the registry (spec model: `Free`,
`Queued(handles)` where the registry owns the submitted handle set,
`Dequeued`). -/
inductive BufferState (Q : Type) where
  | free
  | queued (handles : Q)
  | dequeued
deriving DecidableEq

/-- Whether a state is `Queued` of some handle set. -/
def BufferState.isQueued {Q : Type} : BufferState Q → Bool
  | .queued _ => true
  | _ => false

/-- Static per-slot features used by `qbuf.rs`: the V4L2 buffer index and the
per-plane info list (only the index, the plane count `planes.len()` and
per-plane lookup `planes.get(plane)` are used, so plane info is opaque). -/
structure BufferFeatures where
  index : Nat
  planes : List Nat
deriving DecidableEq

/-- One registry record (`BufferInfo`): fixed features plus the mutable
per-slot state. -/
structure BufferEntry (Q : Type) where
  features : BufferFeatures
  state : BufferState Q
deriving DecidableEq

/-- The queue's buffer registry (`state.buffer_info`): one record per allocated
slot, looked up by position. -/
abbrev Registry (Q : Type) := List (BufferEntry Q)

/-- The state of the slot at position `i`, when the registry has one. -/
def Registry.stateAt {Q : Type} (reg : Registry Q) (i : Nat) :
    Option (BufferState Q) :=
  (reg[i]?).map BufferEntry.state

/-- Modelled from the spec: the safety fuse (`BufferStateFuse`, not under the
reviewed sources) is "constructed bound to a weak (non-owning) reference to a
registry entry"; the weak reference is modelled as an optional slot position
(`none` standing for a dead entry). -/
structure BufferStateFuse where
  armed : Bool
  target : Option Nat
deriving DecidableEq

/-- Modelled from the spec: a freshly built fuse is armed and bound to the
registry entry it was constructed from. -/
def BufferStateFuse.new (i : Nat) : BufferStateFuse :=
  { armed := true, target := some i }

/-- Modelled from the spec: disarming marks the fuse so that its destruction
becomes a no-op. -/
def BufferStateFuse.disarm (f : BufferStateFuse) : BufferStateFuse :=
  { f with armed := false }

/-- Modelled from the spec: destruction of the fuse ("fire"): while still
armed, "if the referenced registry entry still exists, force its state back to
`Free`"; a disarmed fuse or a dead entry leaves the registry untouched. -/
def BufferStateFuse.fire {Q : Type} (f : BufferStateFuse) (reg : Registry Q) :
    Registry Q :=
  if f.armed then
    match f.target with
    | some i =>
      match reg[i]? with
      | some e => reg.set i { e with state := BufferState.free }
      | none => reg
    | none => reg
  else reg

/-- Modelled from the spec: the device-level per-plane descriptor
(`ioctl::QBufPlane`): a byte-usage count plus the memory information a handle
writes into it (opaque, optional because a freshly built descriptor carries
none). -/
structure QBufPlane where
  bytesused : Nat
  handle : Option Nat
deriving DecidableEq

/-- Constructor `QBufPlane::new(size)`: a descriptor with the given byte-usage and no
memory information yet. -/
def QBufPlane.new (size : Nat) : QBufPlane :=
  { bytesused := size, handle := none }

/-- Modelled from the spec: the `BufferHandles` capability (the `memory`
module is not under the reviewed sources): a handle set reports how many
planes it contains and can "populate a device-level per-plane descriptor
... given an index"; the memory information handle `i` contributes is
abstracted as `planeData hs i`. -/
class BufferHandles (Q : Type) where
  len : Q → Nat
  planeData : Q → Nat → Option Nat

/-- Operation `handles.fill_v4l2_plane(i, &mut plane.0)`: write handle `i`'s memory
information into the descriptor; the byte-usage set by the descriptor's
constructor is untouched. -/
def fill_v4l2_plane {Q : Type} [BufferHandles Q] (hs : Q) (i : Nat)
    (p : QBufPlane) : QBufPlane :=
  { p with handle := BufferHandles.planeData hs i }

/-- The queueing error space: the plane-count mismatch raised by `qbuf.rs`
itself (`QBufIoctlError::NumPlanesMismatch(got, expected)`), or a device-level
rejection surfaced by the `ioctl::qbuf` collaborator (opaque code). -/
inductive QBufError where
  | numPlanesMismatch (got : Nat) (expected : Nat)
  | ioctlError (code : Nat)
deriving DecidableEq

/-- Error wrapper `QueueError<P>`: "wraps a regular error and also returns the plane handles
back to the user". -/
structure QueueError (R : Type) where
  error : QBufError
  plane_handles : R
deriving DecidableEq

/-- Record of one issued `ioctl::qbuf` call: the buffer index, the plane
descriptors, and the timestamp placed in the ioctl structure. -/
structure DevCall where
  index : Nat
  planes : List QBufPlane
  timestamp : Int
deriving DecidableEq

/-- How a submission ends: normally (`ok`), with a value-returned error, or by
panicking. -/
inductive SubmitResult (E : Type) where
  | ok
  | err (e : E)
  | panic (msg : String)
deriving DecidableEq

/-- Whether a submission panicked. -/
def SubmitResult.isPanic {E : Type} : SubmitResult E → Bool
  | .panic _ => true
  | _ => false

/-- Action of `Result::map_err` on a submission result. -/
def SubmitResult.mapError {E F : Type} (f : E → F) :
    SubmitResult E → SubmitResult F
  | .ok => .ok
  | .err e => .err (f e)
  | .panic m => .panic m

/-- The handle set bundled in an error outcome, when there is one. -/
def SubmitResult.errHandles {R : Type} :
    SubmitResult (QueueError R) → Option R
  | .err e => some e.plane_handles
  | _ => none

/-- Complete observable outcome of one submission: its result, the registry
afterwards (including any fuse firing caused by dropping the consumed
`QBuffer`), the device call that was issued if any, and whether the fuse was
disarmed. -/
structure Outcome (E Q : Type) where
  result : SubmitResult E
  registry : Registry Q
  devCall : Option DevCall
  fuseDisarmed : Bool
deriving DecidableEq

/-- Lifting of `map_err` to outcomes (used by the self-backed shortcuts, which
simplify `QueueError` to its bare error). -/
def Outcome.mapError {E F Q : Type} (f : E → F) (o : Outcome E Q) :
    Outcome F Q :=
  { result := o.result.mapError f
    registry := o.registry
    devCall := o.devCall
    fuseDisarmed := o.fuseDisarmed }

/-- The pre-submission buffer `QBuffer` (its queue reference is passed
explicitly as the registry; direction and memory kind are phantom in the
source). -/
structure QBuffer where
  index : Nat
  num_planes : Nat
  timestamp : Int
  fuse : BufferStateFuse
deriving DecidableEq

/-- Constructor `QBuffer::new(queue, buffer_info)`: built from the registry entry at
position `i`; copies the entry's index and plane count, zeroes the timestamp
and arms a fresh fuse bound (weakly) to that entry. -/
def QBuffer.new {Q : Type} (reg : Registry Q) (i : Nat) : Option QBuffer :=
  (reg[i]?).map fun buffer_info =>
    { index := buffer_info.features.index
      num_planes := buffer_info.features.planes.length
      timestamp := 0
      fuse := BufferStateFuse.new i }

/-- Accessor `QBuffer::num_expected_planes`. -/
def QBuffer.num_expected_planes (b : QBuffer) : Nat :=
  b.num_planes

/-- Setter `QBuffer::set_timestamp`. -/
def QBuffer.set_timestamp (b : QBuffer) (t : Int) : QBuffer :=
  { b with timestamp := t }

/-- Destroying a `QBuffer` before a completed submit drops its fuse, which
fires if still armed. -/
def QBuffer.drop {Q : Type} (b : QBuffer) (reg : Registry Q) : Registry Q :=
  b.fuse.fire reg

/-- Core submission `QBuffer::queue_bound_planes(planes, plane_handles)`: issues the device
call with the bound descriptors; on device rejection returns the error bundled
with the handles (the consumed `self`, fuse still armed, is dropped, firing
the fuse); on success disarms the fuse and then updates the registry entry at
`self.index` to `Queued` of the handles converted into the queue's unified
kind (`toQ`, modelling `Into<Q>`), panicking with "Inconsistent buffer state!"
if the entry is missing. -/
def QBuffer.queue_bound_planes {R Q : Type} (self : QBuffer) (reg : Registry Q)
    (planes : List QBufPlane) (plane_handles : R) (toQ : R → Q)
    (dev : Option Nat) : Outcome (QueueError R) Q :=
  let call : DevCall :=
    { index := self.index, planes := planes, timestamp := self.timestamp }
  match dev with
  | some code =>
    { result := SubmitResult.err
        { error := QBufError.ioctlError code, plane_handles := plane_handles }
      registry := self.fuse.fire reg
      devCall := some call
      fuseDisarmed := false }
  | none =>
    match reg[self.index]? with
    | none =>
      { result := SubmitResult.panic "Inconsistent buffer state!"
        registry := reg
        devCall := some call
        fuseDisarmed := true }
    | some e =>
      { result := SubmitResult.ok
        registry :=
          reg.set self.index
            { e with state := BufferState.queued (toQ plane_handles) }
        devCall := some call
        fuseDisarmed := true }

/-- Implementation of `CaptureQueueable::queue_with_handles` for a CAPTURE `QBuffer`: rejects a
handle set whose length differs from the expected plane count (returning the
handles, the consumed buffer firing its fuse on drop), otherwise builds one
zero-byte-usage descriptor per plane filled from the handle at the same index
and submits. -/
def QBuffer.captureQueueWithHandles {Q : Type} [BufferHandles Q]
    (self : QBuffer) (reg : Registry Q) (handles : Q) (dev : Option Nat) :
    Outcome (QueueError Q) Q :=
  if BufferHandles.len handles ≠ self.num_expected_planes then
    { result := SubmitResult.err
        { error := QBufError.numPlanesMismatch (BufferHandles.len handles)
            self.num_expected_planes
          plane_handles := handles }
      registry := self.fuse.fire reg
      devCall := none
      fuseDisarmed := false }
  else
    let planes : List QBufPlane :=
      (List.range self.num_expected_planes).map fun i =>
        fill_v4l2_plane handles i (QBufPlane.new 0)
    self.queue_bound_planes reg planes handles id dev

/-- Implementation of `OutputQueueable::queue_with_handles` for an OUTPUT `QBuffer`: rejects a
handle set of the wrong length, then rejects a byte-usage list of the wrong
length (both times returning the handles, the consumed buffer firing its fuse
on drop), otherwise builds one descriptor per plane carrying the supplied
byte-usage and filled from the handle at the same index, and submits. -/
def QBuffer.outputQueueWithHandles {Q : Type} [BufferHandles Q]
    (self : QBuffer) (reg : Registry Q) (handles : Q) (bytes_used : List Nat)
    (dev : Option Nat) : Outcome (QueueError Q) Q :=
  if BufferHandles.len handles ≠ self.num_expected_planes then
    { result := SubmitResult.err
        { error := QBufError.numPlanesMismatch (BufferHandles.len handles)
            self.num_expected_planes
          plane_handles := handles }
      registry := self.fuse.fire reg
      devCall := none
      fuseDisarmed := false }
  else if bytes_used.length ≠ self.num_expected_planes then
    { result := SubmitResult.err
        { error := QBufError.numPlanesMismatch bytes_used.length
            self.num_expected_planes
          plane_handles := handles }
      registry := self.fuse.fire reg
      devCall := none
      fuseDisarmed := false }
  else
    let planes : List QBufPlane :=
      bytes_used.enum.map fun p =>
        fill_v4l2_plane handles p.1 (QBufPlane.new p.2)
    self.queue_bound_planes reg planes handles id dev

/-- Modelled from the spec: the static capabilities of the bound primitive
handle kind that gate the shortcut submissions (the `memory` module's
`PrimitiveBufferHandles` and `SelfBacked` marker are not under the reviewed
sources). -/
structure HandleKindCaps where
  primitive : Bool
  selfBacked : Bool
deriving DecidableEq

/-- The self-backed CAPTURE shortcut `QBuffer::<Capture>::queue()`: available
(`some`) exactly when the bound handle kind is primitive and self-backed
(modelling the impl's trait bounds); builds one zero-byte-usage descriptor
per expected plane with no handle information, submits with the default
handle set (`defaultP` models `Default::default()`), and simplifies the error
to its bare device error. -/
def QBuffer.captureQueueShortcut {P Q : Type} (caps : HandleKindCaps)
    (defaultP : P) (toQ : P → Q) (self : QBuffer) (reg : Registry Q)
    (dev : Option Nat) : Option (Outcome QBufError Q) :=
  if caps.primitive && caps.selfBacked then
    let planes : List QBufPlane :=
      (List.range self.num_expected_planes).map fun _ => QBufPlane.new 0
    some (Outcome.mapError QueueError.error
      (self.queue_bound_planes reg planes defaultP toQ dev))
  else
    none

/-- The self-backed OUTPUT shortcut `QBuffer::<Output>::queue(bytes_used)`:
available exactly when the bound handle kind is primitive and self-backed;
still validates the byte-usage list length (the consumed buffer firing its
fuse on the error path), then builds one descriptor per byte-usage entry with
no handle information and submits with the default handle set. -/
def QBuffer.outputQueueShortcut {P Q : Type} (caps : HandleKindCaps)
    (defaultP : P) (toQ : P → Q) (self : QBuffer) (reg : Registry Q)
    (bytes_used : List Nat) (dev : Option Nat) :
    Option (Outcome QBufError Q) :=
  if caps.primitive && caps.selfBacked then
    some (
      if bytes_used.length ≠ self.num_expected_planes then
        { result := SubmitResult.err
            (QBufError.numPlanesMismatch bytes_used.length
              self.num_expected_planes)
          registry := self.fuse.fire reg
          devCall := none
          fuseDisarmed := false }
      else
        let planes : List QBufPlane :=
          bytes_used.map fun size => QBufPlane.new size
        Outcome.mapError QueueError.error
          (self.queue_bound_planes reg planes defaultP toQ dev))
  else
    none

/-- Accessor `QBuffer::get_plane_mapping(plane)` for OUTPUT buffers of a mappable
handle kind: looks up the registry entry at the buffer's index, then the plane
info at `plane`, then maps it; `mapFn` models the external
`P::HandleType::map(device, plane_info)` operation, which may fail. Pure:
returns only an `Option` and touches no state. -/
def QBuffer.get_plane_mapping {Q M : Type} (self : QBuffer) (reg : Registry Q)
    (mapFn : Nat → Option M) (plane : Nat) : Option M :=
  (reg[self.index]?).bind fun buffer_info =>
    (buffer_info.features.planes[plane]?).bind fun plane_info =>
      mapFn plane_info

/-- Concrete handle-set model for instantiation: a vector of opaque per-plane
handles. -/
instance listBufferHandles : BufferHandles (List Nat) where
  len := List.length
  planeData := fun hs i => hs[i]?

/-- A `QBuffer` built from a registry entry records that entry's features and
carries a fresh fuse bound to it. -/
theorem QBuffer.new_inv {Q : Type} {reg : Registry Q} {i : Nat} {b : QBuffer}
    (hb : QBuffer.new reg i = some b) :
    ∃ e, reg[i]? = some e ∧ b.fuse = BufferStateFuse.new i ∧
      b.num_planes = e.features.planes.length ∧ b.index = e.features.index := by
  unfold QBuffer.new at hb
  obtain ⟨e, he, hbe⟩ := Option.map_eq_some'.mp hb
  exact ⟨e, he, by rw [← hbe], by rw [← hbe], by rw [← hbe]⟩

/-- Firing a fresh fuse over a registry whose target entry is live resets that
entry's state to `Free`. -/
theorem fire_new_stateAt {Q : Type} {reg : Registry Q} {i : Nat}
    {e : BufferEntry Q} (he : reg[i]? = some e) :
    Registry.stateAt ((BufferStateFuse.new i).fire reg) i =
      some BufferState.free := by
  have hlt : i < reg.length := (List.getElem?_eq_some.mp he).1
  unfold BufferStateFuse.fire BufferStateFuse.new
  simp only [he, Registry.stateAt, if_true]
  rw [List.getElem?_set_eq_of_lt _ hlt]
  rfl

/-- The state recorded at a freshly set registry position. -/
theorem stateAt_set {Q : Type} (reg : Registry Q) (i : Nat)
    (e : BufferEntry Q) (h : i < reg.length) :
    Registry.stateAt (reg.set i e) i = some e.state := by
  unfold Registry.stateAt
  rw [List.getElem?_set_eq_of_lt _ h]
  rfl

/-- Evaluation of `queue_bound_planes` on a successful device call with a live registry
entry: disarm, then mark the entry `Queued` of the converted handles. -/
theorem queue_bound_planes_ok {R Q : Type} (b : QBuffer) (reg : Registry Q)
    (planes : List QBufPlane) (ph : R) (toQ : R → Q) {e : BufferEntry Q}
    (he : reg[b.index]? = some e) :
    b.queue_bound_planes reg planes ph toQ none =
      { result := SubmitResult.ok
        registry := reg.set b.index
          { e with state := BufferState.queued (toQ ph) }
        devCall := some
          { index := b.index, planes := planes, timestamp := b.timestamp }
        fuseDisarmed := true } := by
  unfold QBuffer.queue_bound_planes
  simp [he]

/-- Evaluation of `queue_bound_planes` on a rejected device call: error bundling the
handles, fuse fired by the drop of the consumed buffer, no disarm. -/
theorem queue_bound_planes_err {R Q : Type} (b : QBuffer) (reg : Registry Q)
    (planes : List QBufPlane) (ph : R) (toQ : R → Q) (code : Nat) :
    b.queue_bound_planes reg planes ph toQ (some code) =
      { result := SubmitResult.err
          { error := QBufError.ioctlError code, plane_handles := ph }
        registry := b.fuse.fire reg
        devCall := some
          { index := b.index, planes := planes, timestamp := b.timestamp }
        fuseDisarmed := false } :=
  rfl

/-- Evaluation of `queue_bound_planes` on a successful device call with a missing registry
entry: the expect panics. -/
theorem queue_bound_planes_panic {R Q : Type} (b : QBuffer) (reg : Registry Q)
    (planes : List QBufPlane) (ph : R) (toQ : R → Q)
    (hmiss : reg[b.index]? = none) :
    b.queue_bound_planes reg planes ph toQ none =
      { result := SubmitResult.panic "Inconsistent buffer state!"
        registry := reg
        devCall := some
          { index := b.index, planes := planes, timestamp := b.timestamp }
        fuseDisarmed := true } := by
  unfold QBuffer.queue_bound_planes
  simp [hmiss]

/-- C1: submitting with a handle set whose length differs from the expected
plane count — on the capture path or the output path — returns the
plane-count-mismatch error bundling the handles, never issues the device
call, and the slot's registry state is not set to `Queued` (the consumed
buffer's armed fuse resets it to `Free` on drop). -/
theorem C1_plane_count_mismatch_rejected {Q : Type} [BufferHandles Q]
    (reg : Registry Q) (i : Nat) (b : QBuffer) (handles : Q)
    (bytes_used : List Nat) (dev : Option Nat)
    (hb : QBuffer.new reg i = some b) (hi : b.index = i)
    (hk : BufferHandles.len handles ≠ b.num_expected_planes) :
    ((b.captureQueueWithHandles reg handles dev).result = SubmitResult.err
        { error := QBufError.numPlanesMismatch (BufferHandles.len handles)
            b.num_expected_planes
          plane_handles := handles }
      ∧ (b.captureQueueWithHandles reg handles dev).devCall = none
      ∧ (Registry.stateAt (b.captureQueueWithHandles reg handles dev).registry
          b.index).map BufferState.isQueued = some false)
    ∧ ((b.outputQueueWithHandles reg handles bytes_used dev).result =
        SubmitResult.err
          { error := QBufError.numPlanesMismatch (BufferHandles.len handles)
              b.num_expected_planes
            plane_handles := handles }
      ∧ (b.outputQueueWithHandles reg handles bytes_used dev).devCall = none
      ∧ (Registry.stateAt
          (b.outputQueueWithHandles reg handles bytes_used dev).registry
          b.index).map BufferState.isQueued = some false) := by
  obtain ⟨e, he, hfuse, _, _⟩ := QBuffer.new_inv hb
  have hcap : b.captureQueueWithHandles reg handles dev =
      { result := SubmitResult.err
          { error := QBufError.numPlanesMismatch (BufferHandles.len handles)
              b.num_expected_planes
            plane_handles := handles }
        registry := b.fuse.fire reg
        devCall := none
        fuseDisarmed := false } := by
    unfold QBuffer.captureQueueWithHandles
    rw [if_pos hk]
  have hout : b.outputQueueWithHandles reg handles bytes_used dev =
      { result := SubmitResult.err
          { error := QBufError.numPlanesMismatch (BufferHandles.len handles)
              b.num_expected_planes
            plane_handles := handles }
        registry := b.fuse.fire reg
        devCall := none
        fuseDisarmed := false } := by
    unfold QBuffer.outputQueueWithHandles
    rw [if_pos hk]
  have hfree : Registry.stateAt (b.fuse.fire reg) b.index =
      some BufferState.free := by
    rw [hfuse, hi]
    exact fire_new_stateAt he
  refine ⟨⟨?_, ?_, ?_⟩, ?_, ?_, ?_⟩ <;>
    simp [hcap, hout, hfree, BufferState.isQueued]

/-- C2: on a successful device call every submission — capture or output with
explicit handles, and both self-backed shortcuts — disarms the fuse, sets the
slot's registry state to `Queued` of the submitted handles converted into the
queue's unified kind, and returns Ok. -/
theorem C2_success_disarms_and_queues {P Q : Type} [BufferHandles Q]
    (reg : Registry Q) (i : Nat) (b : QBuffer) (handles : Q)
    (bytes_used : List Nat) (caps : HandleKindCaps) (defaultP : P)
    (toQ : P → Q)
    (hb : QBuffer.new reg i = some b) (hi : b.index = i)
    (hk : BufferHandles.len handles = b.num_expected_planes)
    (hby : bytes_used.length = b.num_expected_planes)
    (hcaps : caps.primitive = true ∧ caps.selfBacked = true) :
    ((b.captureQueueWithHandles reg handles none).result = SubmitResult.ok
      ∧ (b.captureQueueWithHandles reg handles none).fuseDisarmed = true
      ∧ Registry.stateAt
          (b.captureQueueWithHandles reg handles none).registry i
          = some (BufferState.queued handles))
    ∧ ((b.outputQueueWithHandles reg handles bytes_used none).result =
        SubmitResult.ok
      ∧ (b.outputQueueWithHandles reg handles bytes_used none).fuseDisarmed =
        true
      ∧ Registry.stateAt
          (b.outputQueueWithHandles reg handles bytes_used none).registry i
          = some (BufferState.queued handles))
    ∧ (∃ o, b.captureQueueShortcut caps defaultP toQ reg none = some o
      ∧ o.result = SubmitResult.ok ∧ o.fuseDisarmed = true
      ∧ Registry.stateAt o.registry i =
          some (BufferState.queued (toQ defaultP)))
    ∧ (∃ o, b.outputQueueShortcut caps defaultP toQ reg bytes_used none =
        some o
      ∧ o.result = SubmitResult.ok ∧ o.fuseDisarmed = true
      ∧ Registry.stateAt o.registry i =
          some (BufferState.queued (toQ defaultP))) := by
  obtain ⟨e, he, hfuse, hnp, hbi⟩ := QBuffer.new_inv hb
  have he' : reg[b.index]? = some e := by rw [hi]; exact he
  have hlt : b.index < reg.length := (List.getElem?_eq_some.mp he').1
  have hknot : ¬BufferHandles.len handles ≠ b.num_expected_planes :=
    fun h => h hk
  have hbynot : ¬bytes_used.length ≠ b.num_expected_planes := fun h => h hby
  have hbool : (caps.primitive && caps.selfBacked) = true := by
    rw [hcaps.1, hcaps.2]; rfl
  have hset : ∀ s : BufferState Q,
      Registry.stateAt (reg.set b.index { e with state := s }) i = some s := by
    intro s
    rw [← hi]
    exact stateAt_set reg b.index { e with state := s } hlt
  refine ⟨?_, ?_, ?_, ?_⟩
  · have hcap : b.captureQueueWithHandles reg handles none =
        b.queue_bound_planes reg
          ((List.range b.num_expected_planes).map fun j =>
            fill_v4l2_plane handles j (QBufPlane.new 0)) handles id none := by
      unfold QBuffer.captureQueueWithHandles
      rw [if_neg hknot]
    rw [hcap, queue_bound_planes_ok _ _ _ _ _ he']
    exact ⟨rfl, rfl, hset _⟩
  · have hout : b.outputQueueWithHandles reg handles bytes_used none =
        b.queue_bound_planes reg
          (bytes_used.enum.map fun p =>
            fill_v4l2_plane handles p.1 (QBufPlane.new p.2)) handles id none := by
      unfold QBuffer.outputQueueWithHandles
      rw [if_neg hknot, if_neg hbynot]
    rw [hout, queue_bound_planes_ok _ _ _ _ _ he']
    exact ⟨rfl, rfl, hset _⟩
  · have hcs : b.captureQueueShortcut caps defaultP toQ reg none =
        some (Outcome.mapError QueueError.error
          (b.queue_bound_planes reg
            ((List.range b.num_expected_planes).map fun _ => QBufPlane.new 0)
            defaultP toQ none)) := by
      unfold QBuffer.captureQueueShortcut
      rw [if_pos hbool]
    rw [hcs, queue_bound_planes_ok _ _ _ _ _ he']
    exact ⟨_, rfl, rfl, rfl, hset _⟩
  · have hos : b.outputQueueShortcut caps defaultP toQ reg bytes_used none =
        some (Outcome.mapError QueueError.error
          (b.queue_bound_planes reg
            (bytes_used.map fun size => QBufPlane.new size)
            defaultP toQ none)) := by
      unfold QBuffer.outputQueueShortcut
      rw [if_pos hbool, if_neg hbynot]
    rw [hos, queue_bound_planes_ok _ _ _ _ _ he']
    exact ⟨_, rfl, rfl, rfl, hset _⟩

/-- C3: on every failing handle-carrying submission — a length mismatch
detected before the device call or a device-call rejection — the returned
error bundles exactly the caller's handle set: the bundled handles of any
error result are the input handles, unchanged. -/
theorem C3_failure_returns_handles {Q : Type} [BufferHandles Q]
    (b : QBuffer) (reg : Registry Q) (handles : Q) (bytes_used : List Nat)
    (dev : Option Nat) :
    ((b.captureQueueWithHandles reg handles dev).result.errHandles = none
      ∨ (b.captureQueueWithHandles reg handles dev).result.errHandles =
        some handles)
    ∧ ((b.outputQueueWithHandles reg handles bytes_used dev).result.errHandles
        = none
      ∨ (b.outputQueueWithHandles reg handles bytes_used dev).result.errHandles
        = some handles) := by
  constructor
  · unfold QBuffer.captureQueueWithHandles
    by_cases hk : BufferHandles.len handles ≠ b.num_expected_planes
    · rw [if_pos hk]; right; rfl
    · rw [if_neg hk]
      cases dev with
      | some code =>
        right
        simp [queue_bound_planes_err, SubmitResult.errHandles]
      | none =>
        cases he : reg[b.index]? with
        | none =>
          left
          simp [queue_bound_planes_panic _ _ _ _ _ he, SubmitResult.errHandles]
        | some e =>
          left
          simp [queue_bound_planes_ok _ _ _ _ _ he, SubmitResult.errHandles]
  · unfold QBuffer.outputQueueWithHandles
    by_cases hk : BufferHandles.len handles ≠ b.num_expected_planes
    · rw [if_pos hk]; right; rfl
    · rw [if_neg hk]
      by_cases hby : bytes_used.length ≠ b.num_expected_planes
      · rw [if_pos hby]; right; rfl
      · rw [if_neg hby]
        cases dev with
        | some code =>
          right
          simp [queue_bound_planes_err, SubmitResult.errHandles]
        | none =>
          cases he : reg[b.index]? with
          | none =>
            left
            simp [queue_bound_planes_panic _ _ _ _ _ he,
              SubmitResult.errHandles]
          | some e =>
            left
            simp [queue_bound_planes_ok _ _ _ _ _ he, SubmitResult.errHandles]

/-- C4: a pre-submission buffer destroyed without a completed submit — by
plain drop or after a device-call rejection — fires its armed fuse and the
bound slot's registry state is `Free` afterwards whatever it was; the fuse is
disarmed only on the success path (a disarmed outcome implies the device call
was issued and succeeded); and destruction of a disarmed fuse changes
nothing. -/
theorem C4_fuse_safety {Q : Type} [BufferHandles Q]
    (reg : Registry Q) (i : Nat) (b : QBuffer) (f : BufferStateFuse)
    (handles : Q) (code : Nat) (dev : Option Nat)
    (hb : QBuffer.new reg i = some b) (hi : b.index = i) :
    Registry.stateAt (b.drop reg) i = some BufferState.free
    ∧ (Registry.stateAt
        (b.captureQueueWithHandles reg handles (some code)).registry i
        = some BufferState.free
      ∧ (b.captureQueueWithHandles reg handles (some code)).fuseDisarmed =
        false)
    ∧ ((b.captureQueueWithHandles reg handles dev).fuseDisarmed = true →
        dev = none
        ∧ (b.captureQueueWithHandles reg handles dev).devCall ≠ none)
    ∧ f.disarm.fire reg = reg := by
  obtain ⟨e, he, hfuse, hnp, hbi⟩ := QBuffer.new_inv hb
  have he' : reg[b.index]? = some e := by rw [hi]; exact he
  have hfree : Registry.stateAt (b.fuse.fire reg) i =
      some BufferState.free := by
    rw [hfuse]
    exact fire_new_stateAt he
  refine ⟨?_, ?_, ?_, ?_⟩
  · unfold QBuffer.drop
    exact hfree
  · unfold QBuffer.captureQueueWithHandles
    by_cases hk : BufferHandles.len handles ≠ b.num_expected_planes
    · rw [if_pos hk]
      exact ⟨hfree, rfl⟩
    · rw [if_neg hk]
      simp only [queue_bound_planes_err]
      exact ⟨hfree, trivial⟩
  · intro hd
    unfold QBuffer.captureQueueWithHandles at hd ⊢
    by_cases hk : BufferHandles.len handles ≠ b.num_expected_planes
    · rw [if_pos hk] at hd
      exact absurd hd (by simp)
    · rw [if_neg hk] at hd ⊢
      cases dev with
      | some code2 =>
        rw [queue_bound_planes_err] at hd
        exact absurd hd (by simp)
      | none =>
        refine ⟨rfl, ?_⟩
        cases hee : reg[b.index]? with
        | none => simp [queue_bound_planes_panic _ _ _ _ _ hee]
        | some e2 => simp [queue_bound_planes_ok _ _ _ _ _ hee]
  · unfold BufferStateFuse.fire BufferStateFuse.disarm
    simp

/-- Whatever the device outcome, `queue_bound_planes` records the device call
with the bound descriptors, the buffer index and the timestamp. -/
theorem queue_bound_planes_devCall {R Q : Type} (b : QBuffer)
    (reg : Registry Q) (planes : List QBufPlane) (ph : R) (toQ : R → Q)
    (dev : Option Nat) :
    (b.queue_bound_planes reg planes ph toQ dev).devCall =
      some { index := b.index, planes := planes, timestamp := b.timestamp } := by
  unfold QBuffer.queue_bound_planes
  cases dev with
  | some code => rfl
  | none => cases h : reg[b.index]? <;> simp [h]

/-- C5: an output submission whose byte-usage list length differs from the
expected plane count (in particular one shorter than the handle count when
the handle count matches) fails with the mismatch error before any device
call is issued, both on the handle-carrying path (as a second check, the
handle-count check passing) and on the self-backed shortcut. -/
theorem C5_output_bytes_used_check {P Q : Type} [BufferHandles Q]
    (b : QBuffer) (reg : Registry Q) (handles : Q) (bytes_used : List Nat)
    (dev : Option Nat) (caps : HandleKindCaps) (defaultP : P) (toQ : P → Q)
    (hk : BufferHandles.len handles = b.num_expected_planes)
    (hby : bytes_used.length ≠ b.num_expected_planes)
    (hcaps : caps.primitive = true ∧ caps.selfBacked = true) :
    ((b.outputQueueWithHandles reg handles bytes_used dev).result =
        SubmitResult.err
          { error := QBufError.numPlanesMismatch bytes_used.length
              b.num_expected_planes
            plane_handles := handles }
      ∧ (b.outputQueueWithHandles reg handles bytes_used dev).devCall = none)
    ∧ (∃ o, b.outputQueueShortcut caps defaultP toQ reg bytes_used dev =
        some o
      ∧ o.result = SubmitResult.err
          (QBufError.numPlanesMismatch bytes_used.length
            b.num_expected_planes)
      ∧ o.devCall = none) := by
  have hknot : ¬BufferHandles.len handles ≠ b.num_expected_planes :=
    fun h => h hk
  have hbool : (caps.primitive && caps.selfBacked) = true := by
    rw [hcaps.1, hcaps.2]; rfl
  constructor
  · unfold QBuffer.outputQueueWithHandles
    rw [if_neg hknot, if_pos hby]
    exact ⟨rfl, rfl⟩
  · have hos : b.outputQueueShortcut caps defaultP toQ reg bytes_used dev =
        some
          { result := SubmitResult.err
              (QBufError.numPlanesMismatch bytes_used.length
                b.num_expected_planes)
            registry := b.fuse.fire reg
            devCall := none
            fuseDisarmed := false } := by
      unfold QBuffer.outputQueueShortcut
      rw [if_pos hbool, if_pos hby]
    exact ⟨_, hos, rfl, rfl⟩

/-- C6: the self-backed capture shortcut builds exactly
`num_expected_planes` zero-byte-usage descriptors and issues the device call
with them; on device success the slot's state becomes `Queued` of the
(converted) default handle set; and the shortcut is available exactly when
the bound handle kind is both primitive and self-backed. -/
theorem C6_capture_selfbacked_shortcut {P Q : Type}
    (reg : Registry Q) (i : Nat) (b : QBuffer) (caps : HandleKindCaps)
    (defaultP : P) (toQ : P → Q) (dev : Option Nat)
    (hb : QBuffer.new reg i = some b) (hi : b.index = i)
    (hcaps : caps.primitive = true ∧ caps.selfBacked = true) :
    (∃ o, b.captureQueueShortcut caps defaultP toQ reg dev = some o
      ∧ o.devCall = some
          { index := b.index
            planes := List.replicate b.num_expected_planes (QBufPlane.new 0)
            timestamp := b.timestamp })
    ∧ (∃ o, b.captureQueueShortcut caps defaultP toQ reg none = some o
      ∧ o.result = SubmitResult.ok
      ∧ Registry.stateAt o.registry i =
          some (BufferState.queued (toQ defaultP)))
    ∧ (∀ c : HandleKindCaps,
        (b.captureQueueShortcut c defaultP toQ reg dev).isSome =
          (c.primitive && c.selfBacked)) := by
  obtain ⟨e, he, hfuse, hnp, hbi⟩ := QBuffer.new_inv hb
  have he' : reg[b.index]? = some e := by rw [hi]; exact he
  have hlt : b.index < reg.length := (List.getElem?_eq_some.mp he').1
  have hbool : (caps.primitive && caps.selfBacked) = true := by
    rw [hcaps.1, hcaps.2]; rfl
  have hpl : ((List.range b.num_expected_planes).map
      fun _ => QBufPlane.new 0) =
      List.replicate b.num_expected_planes (QBufPlane.new 0) := by
    simp [List.map_const]
  have hcs : ∀ d, b.captureQueueShortcut caps defaultP toQ reg d =
      some (Outcome.mapError QueueError.error
        (b.queue_bound_planes reg
          (List.replicate b.num_expected_planes (QBufPlane.new 0))
          defaultP toQ d)) := by
    intro d
    unfold QBuffer.captureQueueShortcut
    rw [if_pos hbool, hpl]
  refine ⟨?_, ?_, ?_⟩
  · refine ⟨_, hcs dev, ?_⟩
    show (b.queue_bound_planes reg
      (List.replicate b.num_expected_planes (QBufPlane.new 0))
      defaultP toQ dev).devCall = _
    rw [queue_bound_planes_devCall]
  · refine ⟨_, hcs none, ?_⟩
    rw [queue_bound_planes_ok _ _ _ _ _ he']
    refine ⟨rfl, ?_⟩
    rw [← hi]
    exact stateAt_set reg b.index _ hlt
  · intro c
    unfold QBuffer.captureQueueShortcut
    cases hc : (c.primitive && c.selfBacked) <;> simp

/-- C7: a capture submission with a handle set of the expected length issues
the device call with exactly one descriptor per handle, each with byte-usage
0 and carrying the memory information of the handle at the same index. -/
theorem C7_capture_descriptors {Q : Type} [BufferHandles Q]
    (b : QBuffer) (reg : Registry Q) (handles : Q) (dev : Option Nat)
    (hk : BufferHandles.len handles = b.num_expected_planes) :
    ∃ call, (b.captureQueueWithHandles reg handles dev).devCall = some call
      ∧ call.planes.length = BufferHandles.len handles
      ∧ ∀ j, j < BufferHandles.len handles →
          call.planes[j]? = some
            { bytesused := 0, handle := BufferHandles.planeData handles j } := by
  have hknot : ¬BufferHandles.len handles ≠ b.num_expected_planes :=
    fun h => h hk
  have hcap : b.captureQueueWithHandles reg handles dev =
      b.queue_bound_planes reg
        ((List.range b.num_expected_planes).map fun j =>
          fill_v4l2_plane handles j (QBufPlane.new 0)) handles id dev := by
    unfold QBuffer.captureQueueWithHandles
    rw [if_neg hknot]
  refine ⟨({ index := b.index
             planes := (List.range b.num_expected_planes).map fun j =>
               fill_v4l2_plane handles j (QBufPlane.new 0)
             timestamp := b.timestamp } : DevCall), ?_, ?_, ?_⟩
  · rw [hcap, queue_bound_planes_devCall]
  · simp [hk]
  · intro j hj
    have hr : (List.range b.num_expected_planes)[j]? = some j :=
      List.getElem?_range (hk ▸ hj)
    simp [List.getElem?_map, hr, fill_v4l2_plane, QBufPlane.new]

/-- C8: an output submission passing both length checks issues the device
call with one descriptor per plane whose byte-usage is the caller's
`bytes_used` entry at the same index and whose memory information comes from
the handle at the same index. -/
theorem C8_output_descriptors {Q : Type} [BufferHandles Q]
    (b : QBuffer) (reg : Registry Q) (handles : Q) (bytes_used : List Nat)
    (dev : Option Nat)
    (hk : BufferHandles.len handles = b.num_expected_planes)
    (hby : bytes_used.length = b.num_expected_planes) :
    ∃ call, (b.outputQueueWithHandles reg handles bytes_used dev).devCall =
        some call
      ∧ call.planes.length = b.num_expected_planes
      ∧ ∀ (j s : Nat), bytes_used[j]? = some s →
          call.planes[j]? = some
            { bytesused := s, handle := BufferHandles.planeData handles j } := by
  have hknot : ¬BufferHandles.len handles ≠ b.num_expected_planes :=
    fun h => h hk
  have hbynot : ¬bytes_used.length ≠ b.num_expected_planes := fun h => h hby
  have hout : b.outputQueueWithHandles reg handles bytes_used dev =
      b.queue_bound_planes reg
        (bytes_used.enum.map fun p =>
          fill_v4l2_plane handles p.1 (QBufPlane.new p.2)) handles id dev := by
    unfold QBuffer.outputQueueWithHandles
    rw [if_neg hknot, if_neg hbynot]
  refine ⟨({ index := b.index
             planes := bytes_used.enum.map fun p =>
               fill_v4l2_plane handles p.1 (QBufPlane.new p.2)
             timestamp := b.timestamp } : DevCall), ?_, ?_, ?_⟩
  · rw [hout, queue_bound_planes_devCall]
  · simp [hby]
  · intro j s hs
    simp [List.getElem?_map, List.getElem?_enum, hs, fill_v4l2_plane,
      QBufPlane.new]

/-- C9: after a successful device call a missing registry entry at the
buffer's index makes the submission panic with "Inconsistent buffer state!"
rather than return; and for a buffer created from an entry of that registry
the panic branch is unreachable, whatever the device outcome. -/
theorem C9_inconsistent_state_panic {R Q : Type}
    (reg : Registry Q) (planes planes2 : List QBufPlane) (ph ph2 : R)
    (toQ : R → Q) (b b2 : QBuffer) (i : Nat) (dev : Option Nat)
    (hmiss : reg[b.index]? = none)
    (hb2 : QBuffer.new reg i = some b2) (hi2 : b2.index = i) :
    (b.queue_bound_planes reg planes ph toQ none).result =
      SubmitResult.panic "Inconsistent buffer state!"
    ∧ (b2.queue_bound_planes reg planes2 ph2 toQ dev).result.isPanic =
      false := by
  constructor
  · rw [queue_bound_planes_panic _ _ _ _ _ hmiss]
  · obtain ⟨e, he, _, _, _⟩ := QBuffer.new_inv hb2
    have he' : reg[b2.index]? = some e := by rw [hi2]; exact he
    cases dev with
    | some code => rw [queue_bound_planes_err]; rfl
    | none => rw [queue_bound_planes_ok _ _ _ _ _ he']; rfl

/-- C10: `get_plane_mapping` is total and mutates nothing (it is a pure
function of the buffer and registry returning only an `Option`): it returns
`none` when the registry has no entry at the buffer's index, when the plane
index is not below the slot's plane count, or when the mapping operation
fails (`mapFn pi = none`), and exactly the mapping's result otherwise. -/
theorem C10_get_plane_mapping_total {Q M : Type} (b : QBuffer)
    (reg : Registry Q) (mapFn : Nat → Option M) (plane : Nat) :
    (reg[b.index]? = none → b.get_plane_mapping reg mapFn plane = none)
    ∧ (∀ bi, reg[b.index]? = some bi → bi.features.planes.length ≤ plane →
        b.get_plane_mapping reg mapFn plane = none)
    ∧ (∀ bi pi, reg[b.index]? = some bi →
        bi.features.planes[plane]? = some pi →
        b.get_plane_mapping reg mapFn plane = mapFn pi) := by
  unfold QBuffer.get_plane_mapping
  refine ⟨?_, ?_, ?_⟩
  · intro h
    rw [h]
    rfl
  · intro bi h hle
    rw [h]
    have hn : bi.features.planes[plane]? = none := List.getElem?_eq_none hle
    simp [hn]
  · intro bi pi h hp
    rw [h]
    simp [hp]

/-- Concrete registry record used for instantiation: slot 0, one plane (with
opaque plane info 7), currently free. -/
def entW : BufferEntry (List Nat) :=
  { features := { index := 0, planes := [7] }, state := BufferState.free }

/-- Concrete one-slot registry used for instantiation. -/
def regW : Registry (List Nat) :=
  [entW]

/-- The pre-submission buffer claimed from slot 0 of `regW`. -/
def bufW : QBuffer :=
  { index := 0, num_planes := 1, timestamp := 0, fuse := BufferStateFuse.new 0 }

/-- A pre-submission buffer whose index has no entry in `regW`. -/
def bufMissW : QBuffer :=
  { index := 5, num_planes := 1, timestamp := 0, fuse := BufferStateFuse.new 5 }

/-- Concrete mapping operation used for instantiation: succeeds exactly on
plane info 7. -/
def mapW : Nat → Option Nat :=
  fun pi => if pi = 7 then some (pi + 1) else none

/-- Concrete fully-capable handle kind used for instantiation. -/
def capsW : HandleKindCaps :=
  { primitive := true, selfBacked := true }

theorem C1_plane_count_mismatch_rejected_w :
    QBuffer.new regW 0 = some bufW ∧ bufW.index = 0
    ∧ BufferHandles.len ([1, 2] : List Nat) ≠ bufW.num_expected_planes
    ∧ (((bufW.captureQueueWithHandles regW [1, 2] none).result =
          SubmitResult.err
            { error := QBufError.numPlanesMismatch 2 1
              plane_handles := [1, 2] }
        ∧ (bufW.captureQueueWithHandles regW [1, 2] none).devCall = none
        ∧ (Registry.stateAt
            (bufW.captureQueueWithHandles regW [1, 2] none).registry 0).map
            BufferState.isQueued = some false)
      ∧ ((bufW.outputQueueWithHandles regW [1, 2] [] none).result =
          SubmitResult.err
            { error := QBufError.numPlanesMismatch 2 1
              plane_handles := [1, 2] }
        ∧ (bufW.outputQueueWithHandles regW [1, 2] [] none).devCall = none
        ∧ (Registry.stateAt
            (bufW.outputQueueWithHandles regW [1, 2] [] none).registry 0).map
            BufferState.isQueued = some false)) :=
  ⟨by decide, by decide, by decide,
    C1_plane_count_mismatch_rejected regW 0 bufW [1, 2] [] none (by decide)
      (by decide) (by decide)⟩

theorem C2_success_disarms_and_queues_w :
    QBuffer.new regW 0 = some bufW ∧ bufW.index = 0
    ∧ BufferHandles.len ([5] : List Nat) = bufW.num_expected_planes
    ∧ ([3] : List Nat).length = bufW.num_expected_planes
    ∧ (capsW.primitive = true ∧ capsW.selfBacked = true)
    ∧ (((bufW.captureQueueWithHandles regW [5] none).result = SubmitResult.ok
        ∧ (bufW.captureQueueWithHandles regW [5] none).fuseDisarmed = true
        ∧ Registry.stateAt
            (bufW.captureQueueWithHandles regW [5] none).registry 0
            = some (BufferState.queued [5]))
      ∧ ((bufW.outputQueueWithHandles regW [5] [3] none).result =
          SubmitResult.ok
        ∧ (bufW.outputQueueWithHandles regW [5] [3] none).fuseDisarmed = true
        ∧ Registry.stateAt
            (bufW.outputQueueWithHandles regW [5] [3] none).registry 0
            = some (BufferState.queued [5]))
      ∧ (∃ o, bufW.captureQueueShortcut capsW ([] : List Nat) id regW none =
          some o
        ∧ o.result = SubmitResult.ok ∧ o.fuseDisarmed = true
        ∧ Registry.stateAt o.registry 0 = some (BufferState.queued []))
      ∧ (∃ o,
          bufW.outputQueueShortcut capsW ([] : List Nat) id regW [3] none =
            some o
        ∧ o.result = SubmitResult.ok ∧ o.fuseDisarmed = true
        ∧ Registry.stateAt o.registry 0 = some (BufferState.queued []))) :=
  ⟨by decide, by decide, by decide, by decide, by decide,
    C2_success_disarms_and_queues regW 0 bufW [5] [3] capsW ([] : List Nat)
      id (by decide) (by decide) (by decide) (by decide) (by decide)⟩

theorem C4_fuse_safety_w :
    QBuffer.new regW 0 = some bufW ∧ bufW.index = 0
    ∧ (Registry.stateAt (bufW.drop regW) 0 = some BufferState.free
      ∧ (Registry.stateAt
          (bufW.captureQueueWithHandles regW [5] (some 9)).registry 0
          = some BufferState.free
        ∧ (bufW.captureQueueWithHandles regW [5] (some 9)).fuseDisarmed =
          false)
      ∧ ((bufW.captureQueueWithHandles regW [5] none).fuseDisarmed = true →
          (none : Option Nat) = none
          ∧ (bufW.captureQueueWithHandles regW [5] none).devCall ≠ none)
      ∧ (BufferStateFuse.disarm { armed := true, target := some 0 }).fire regW
          = regW) :=
  ⟨by decide, by decide,
    C4_fuse_safety regW 0 bufW { armed := true, target := some 0 } [5] 9 none
      (by decide) (by decide)⟩

theorem C5_output_bytes_used_check_w :
    BufferHandles.len ([5] : List Nat) = bufW.num_expected_planes
    ∧ ([] : List Nat).length ≠ bufW.num_expected_planes
    ∧ (capsW.primitive = true ∧ capsW.selfBacked = true)
    ∧ (((bufW.outputQueueWithHandles regW [5] [] none).result =
          SubmitResult.err
            { error := QBufError.numPlanesMismatch 0 1
              plane_handles := [5] }
        ∧ (bufW.outputQueueWithHandles regW [5] [] none).devCall = none)
      ∧ (∃ o, bufW.outputQueueShortcut capsW ([] : List Nat) id regW [] none =
          some o
        ∧ o.result = SubmitResult.err (QBufError.numPlanesMismatch 0 1)
        ∧ o.devCall = none)) :=
  ⟨by decide, by decide, by decide,
    C5_output_bytes_used_check bufW regW [5] [] none capsW ([] : List Nat) id
      (by decide) (by decide) (by decide)⟩

theorem C6_capture_selfbacked_shortcut_w :
    QBuffer.new regW 0 = some bufW ∧ bufW.index = 0
    ∧ (capsW.primitive = true ∧ capsW.selfBacked = true)
    ∧ ((∃ o, bufW.captureQueueShortcut capsW ([] : List Nat) id regW none =
        some o
      ∧ o.devCall = some
          { index := 0
            planes := List.replicate 1 (QBufPlane.new 0)
            timestamp := 0 })
      ∧ (∃ o, bufW.captureQueueShortcut capsW ([] : List Nat) id regW none =
          some o
        ∧ o.result = SubmitResult.ok
        ∧ Registry.stateAt o.registry 0 = some (BufferState.queued []))
      ∧ ((bufW.captureQueueShortcut { primitive := false, selfBacked := true }
            ([] : List Nat) id regW none).isSome = (false && true))) :=
  ⟨by decide, by decide, by decide, by
    have h := C6_capture_selfbacked_shortcut regW 0 bufW capsW ([] : List Nat)
      id none (by decide) (by decide) (by decide)
    exact ⟨h.1, h.2.1, h.2.2 { primitive := false, selfBacked := true }⟩⟩

theorem C7_capture_descriptors_w :
    BufferHandles.len ([5] : List Nat) = bufW.num_expected_planes
    ∧ (∃ call, (bufW.captureQueueWithHandles regW [5] none).devCall =
        some call
      ∧ call.planes.length = 1
      ∧ ∀ j, j < 1 →
          call.planes[j]? = some
            { bytesused := 0,
              handle := BufferHandles.planeData ([5] : List Nat) j }) :=
  ⟨by decide, C7_capture_descriptors bufW regW [5] none (by decide)⟩

theorem C8_output_descriptors_w :
    BufferHandles.len ([5] : List Nat) = bufW.num_expected_planes
    ∧ ([3] : List Nat).length = bufW.num_expected_planes
    ∧ (∃ call, (bufW.outputQueueWithHandles regW [5] [3] none).devCall =
        some call
      ∧ call.planes.length = 1
      ∧ ∀ (j s : Nat), ([3] : List Nat)[j]? = some s →
          call.planes[j]? = some
            { bytesused := s,
              handle := BufferHandles.planeData ([5] : List Nat) j }) :=
  ⟨by decide, by decide,
    C8_output_descriptors bufW regW [5] [3] none (by decide) (by decide)⟩

theorem C9_inconsistent_state_panic_w :
    regW[bufMissW.index]? = none
    ∧ QBuffer.new regW 0 = some bufW ∧ bufW.index = 0
    ∧ ((bufMissW.queue_bound_planes regW [] ([] : List Nat) id none).result =
        SubmitResult.panic "Inconsistent buffer state!"
      ∧ (bufW.queue_bound_planes regW [] ([] : List Nat) id
          none).result.isPanic = false) :=
  ⟨by decide, by decide, by decide,
    C9_inconsistent_state_panic regW [] [] ([] : List Nat) ([] : List Nat) id
      bufMissW bufW 0 none (by decide) (by decide) (by decide)⟩

theorem C10_get_plane_mapping_total_w :
    regW[bufMissW.index]? = none
    ∧ regW[bufW.index]? = some entW
    ∧ entW.features.planes.length ≤ 3
    ∧ entW.features.planes[0]? = some 7
    ∧ bufMissW.get_plane_mapping regW mapW 0 = none
    ∧ bufW.get_plane_mapping regW mapW 3 = none
    ∧ bufW.get_plane_mapping regW mapW 0 = mapW 7 :=
  ⟨by decide, by decide, by decide, by decide,
    (C10_get_plane_mapping_total bufMissW regW mapW 0).1 (by decide),
    (C10_get_plane_mapping_total bufW regW mapW 3).2.1 entW (by decide)
      (by decide),
    (C10_get_plane_mapping_total bufW regW mapW 0).2.2 entW 7 (by decide)
      (by decide)⟩

end V4l2r
